import Mathlib

/-!
Shallow embedding of the hyperswitch payment-reject operation, customer
core operations, and the vault JWE transformers, together with theorems
about the specified properties.

Conventions of the embedding:
* asynchronous storage calls become explicit state passing on a `Store`
  value holding the persisted records as lists of rows;
* fallible Rust code returning `RouterResult` / `CustomResult` becomes
  `Except ApiErrorResponse` / `Except VaultError`;
* Rust `String` values are Lean `String`s, except in the JWE splitting
  code where strings are modelled as `List Char` so that splitting on a
  separator character can be reasoned about directly;
* helper functions living in crates outside the excerpted sources
  (status guard, address resolution, storage update application) are
  modelled from the specification and marked as such in doc comments.
-/

namespace Hyperswitch

/-- Lifecycle status of a payment intent
(`common_enums::IntentStatus`, full variant list of the upstream enum). -/
inductive IntentStatus where
  | Succeeded
  | Failed
  | Cancelled
  | Processing
  | RequiresCustomerAction
  | RequiresMerchantAction
  | RequiresPaymentMethod
  | RequiresConfirmation
  | RequiresCapture
  | PartiallyCaptured
  | PartiallyCapturedAndCapturable
  deriving DecidableEq, Repr

/-- Snake-case rendering of an intent status, as produced by the strum
Display derive on the upstream enum. -/
def intentStatusToString : IntentStatus → String
  | .Succeeded => "succeeded"
  | .Failed => "failed"
  | .Cancelled => "cancelled"
  | .Processing => "processing"
  | .RequiresCustomerAction => "requires_customer_action"
  | .RequiresMerchantAction => "requires_merchant_action"
  | .RequiresPaymentMethod => "requires_payment_method"
  | .RequiresConfirmation => "requires_confirmation"
  | .RequiresCapture => "requires_capture"
  | .PartiallyCaptured => "partially_captured"
  | .PartiallyCapturedAndCapturable => "partially_captured_and_capturable"

/-- Status of a payment attempt (`common_enums::AttemptStatus`,
representative subset; only `Failure` is written by the reject flow). -/
inductive AttemptStatus where
  | Started
  | Authorized
  | Charged
  | Authorizing
  | Voided
  | Pending
  | Failure
  | PaymentMethodAwaited
  deriving DecidableEq, Repr

/-- Currency of an attempt (representative subset of the upstream enum). -/
inductive Currency where
  | USD
  | EUR
  | GBP
  deriving DecidableEq, Repr

/-- Merchant storage scheme (`common_enums::MerchantStorageScheme`). -/
inductive MerchantStorageScheme where
  | PostgresOnly
  | RedisKv
  deriving DecidableEq, Repr

/-- Snake-case rendering of the storage scheme (strum Display derive). -/
def storageSchemeToString : MerchantStorageScheme → String
  | .PostgresOnly => "postgres_only"
  | .RedisKv => "redis_kv"

/-- Fraud-check outcome status (`FraudCheckStatus`). -/
inductive FraudCheckStatus where
  | Fraud
  | ManualReview
  | Pending
  | Legit
  | TransactionFailure
  deriving DecidableEq, Repr

/-- Snake-case rendering of a fraud-check status (strum Display derive),
used when the reject flow copies it into the attempt error code. -/
def frmStatusToString : FraudCheckStatus → String
  | .Fraud => "fraud"
  | .ManualReview => "manual_review"
  | .Pending => "pending"
  | .Legit => "legit"
  | .TransactionFailure => "transaction_failure"

/-- Stored fraud-check record for a payment. `frm_reason` is a JSON value
in the source; it is modelled here by its rendered string form, so the
`reason.to_string()` rendering in the source becomes the identity. -/
structure FraudCheck where
  payment_id : String
  merchant_id : String
  frm_status : FraudCheckStatus
  frm_reason : Option String
  deriving DecidableEq, Repr

/-- Merchant decision recorded on the intent by the reject flow
(`common_enums::MerchantDecision`). -/
inductive MerchantDecision where
  | Approved
  | Rejected
  | AutoRefunded
  deriving DecidableEq, Repr

/-- Rendering of a merchant decision, as `MerchantDecision::to_string()`. -/
def merchantDecisionToString : MerchantDecision → String
  | .Approved => "approved"
  | .Rejected => "rejected"
  | .AutoRefunded => "auto_refunded"

/-- The stored payment-intent row (fields used by the reject flow). -/
structure PaymentIntent where
  payment_id : String
  merchant_id : String
  status : IntentStatus
  active_attempt_id : String
  shipping_address_id : Option String
  billing_address_id : Option String
  profile_id : Option String
  merchant_decision : Option String
  updated_by : String
  deriving DecidableEq, Repr

/-- The stored payment-attempt row (fields used by the reject flow). -/
structure PaymentAttempt where
  attempt_id : String
  payment_id : String
  merchant_id : String
  status : AttemptStatus
  currency : Option Currency
  amount : Int
  error_code : Option String
  error_message : Option String
  payment_method_billing_address_id : Option String
  updated_by : String
  deriving DecidableEq, Repr

/-- A stored address row. The personal fields are the ones redacted by
`delete_customer`; `customer_id`/`merchant_id` key the customer-scoped
update, `address_id` keys the per-payment lookups. -/
structure Address where
  address_id : String
  customer_id : Option String
  merchant_id : String
  city : Option String
  country : Option String
  line1 : Option String
  line2 : Option String
  line3 : Option String
  state : Option String
  zip : Option String
  first_name : Option String
  last_name : Option String
  phone_number : Option String
  country_code : Option String
  deriving DecidableEq, Repr

/-- A business-profile row (field used by the reject flow). -/
structure BusinessProfile where
  profile_id : String
  use_billing_as_payment_method_billing : Option Bool
  deriving DecidableEq, Repr

/-- Mandate status (`common_enums::MandateStatus`, subset). -/
inductive MandateStatus where
  | Active
  | Inactive
  | Pending
  | Revoked
  deriving DecidableEq, Repr

/-- A stored mandate row (fields used by `delete_customer`). -/
structure Mandate where
  mandate_id : String
  merchant_id : String
  customer_id : String
  mandate_status : MandateStatus
  deriving DecidableEq, Repr

/-- Payment-method kind (`enums::PaymentMethodType`, subset). -/
inductive PaymentMethodType where
  | Card
  | PayLater
  | Wallet
  deriving DecidableEq, Repr

/-- A stored payment-method row (fields used by `delete_customer`). -/
structure PaymentMethod where
  payment_method_id : String
  customer_id : String
  merchant_id : String
  payment_method : PaymentMethodType
  deriving DecidableEq, Repr

/-- A stored customer row (`storage::Customer`). -/
structure Customer where
  customer_id : String
  merchant_id : String
  name : Option String
  email : Option String
  phone : Option String
  description : Option String
  phone_country_code : Option String
  metadata : Option String
  deriving DecidableEq, Repr

/-- A new customer record to insert (`storage::CustomerNew`). -/
structure CustomerNew where
  customer_id : String
  merchant_id : String
  name : Option String
  email : Option String
  phone : Option String
  description : Option String
  phone_country_code : Option String
  metadata : Option String
  deriving DecidableEq, Repr

/-- The customer row produced by inserting a `CustomerNew`. -/
def CustomerNew.toCustomer (n : CustomerNew) : Customer :=
  { customer_id := n.customer_id
    merchant_id := n.merchant_id
    name := n.name
    email := n.email
    phone := n.phone
    description := n.description
    phone_country_code := n.phone_country_code
    metadata := n.metadata }

/-- The persisted state visible to the excerpted operations: one list of
rows per table touched by them. -/
structure Store where
  intents : List PaymentIntent
  attempts : List PaymentAttempt
  addresses : List Address
  profiles : List BusinessProfile
  fraud_checks : List FraudCheck
  customers : List Customer
  mandates : List Mandate
  payment_methods : List PaymentMethod
  deriving DecidableEq, Repr

/-- Error taxonomy (`ApiErrorResponse`, variants reached by the excerpted
code paths). `InvalidStatusTransition` carries the operation name and the
rendered offending status, following the specification of the status
guard. -/
inductive ApiErrorResponse where
  | PaymentNotFound
  | InvalidStatusTransition (operation : String) (status : String)
  | InternalServerError
  | ProfileNotFound (id : String)
  | MissingRequiredField (field : String)
  | CustomerNotFound
  | CustomerRedacted
  | MandateActive
  | MandateNotFound
  | PaymentMethodNotFound
  | AddressNotFound
  deriving DecidableEq, Repr

/-- Vault error taxonomy (`errors::VaultError`, variants reached here). -/
inductive VaultError where
  | SaveCardFailed
  | RequestEncodingFailed
  | RequestEncryptionFailed
  | ResponseDeserializationFailed
  | FetchCardFailed
  deriving DecidableEq, Repr

/-- The payment identifier supplied to an operation
(`api::PaymentIdType`). Only the intent-id variant resolves to a payment
intent id; the other variants make `get_payment_intent_id` fail. -/
inductive PaymentIdType where
  | PaymentIntentId (id : String)
  | ConnectorTransactionId (id : String)
  | PaymentAttemptId (id : String)
  | PreprocessingId (id : String)
  deriving DecidableEq, Repr

/-- `PaymentIdTypeExt::get_payment_intent_id`: succeeds only on the
intent-id variant; the `change_context` at the call site turns the
failure into `PaymentNotFound`. -/
def PaymentIdType.get_payment_intent_id : PaymentIdType → Option String
  | .PaymentIntentId id => some id
  | _ => none

/-- Merchant context supplied by the (excluded) transport layer: the
resolved merchant id and the merchant account's storage scheme. -/
structure MerchantContext where
  merchant_id : String
  storage_scheme : MerchantStorageScheme
  deriving DecidableEq, Repr

/-- `find_payment_intent_by_payment_id_merchant_id`. -/
def find_payment_intent (st : Store) (payment_id merchant_id : String) :
    Option PaymentIntent :=
  st.intents.find? (fun i => i.payment_id == payment_id && i.merchant_id == merchant_id)

/-- `find_payment_attempt_by_payment_id_merchant_id_attempt_id`. -/
def find_payment_attempt (st : Store) (payment_id merchant_id attempt_id : String) :
    Option PaymentAttempt :=
  st.attempts.find? (fun a =>
    a.payment_id == payment_id && a.merchant_id == merchant_id && a.attempt_id == attempt_id)

/-- `find_address` by address id, the read underlying address resolution. -/
def find_address (st : Store) (address_id : String) : Option Address :=
  st.addresses.find? (fun a => a.address_id == address_id)

/-- `find_business_profile_by_profile_id`. -/
def find_business_profile (st : Store) (profile_id : String) : Option BusinessProfile :=
  st.profiles.find? (fun p => p.profile_id == profile_id)

/-- `find_fraud_check_by_payment_id`: the storage call returns the row or
a not-found error; the `.ok()` at the call site collapses that to an
`Option`, which is what this returns. -/
def find_fraud_check (st : Store) (payment_id merchant_id : String) :
    Option FraudCheck :=
  st.fraud_checks.find? (fun f =>
    f.payment_id == payment_id && f.merchant_id == merchant_id)

/-- `find_customer_by_customer_id_merchant_id`. -/
def find_customer (st : Store) (customer_id merchant_id : String) : Option Customer :=
  st.customers.find? (fun c =>
    c.customer_id == customer_id && c.merchant_id == merchant_id)

/-- `find_mandate_by_merchant_id_customer_id`: returns every mandate of
the customer (an empty result is not an error). -/
def find_mandates (st : Store) (merchant_id customer_id : String) : List Mandate :=
  st.mandates.filter (fun m =>
    m.merchant_id == merchant_id && m.customer_id == customer_id)

/-- `find_payment_method_by_customer_id_merchant_id_list`. -/
def find_payment_methods (st : Store) (customer_id merchant_id : String) :
    List PaymentMethod :=
  st.payment_methods.filter (fun p =>
    p.customer_id == customer_id && p.merchant_id == merchant_id)

/-- Modelled from the spec: the status guard
`helpers::validate_payment_status_against_not_allowed_statuses` lives in
`payments/helpers.rs`, which is not among the excerpted sources. Per the
spec it returns success if the current status is not in the forbidden
set and otherwise fails with an `InvalidStatusTransition` error
identifying the operation and the offending status; it has no side
effects. -/
def validate_payment_status_against_not_allowed_statuses
    (intent_status : IntentStatus) (not_allowed_statuses : List IntentStatus)
    (action : String) : Except ApiErrorResponse Unit :=
  if intent_status ∈ not_allowed_statuses then
    .error (.InvalidStatusTransition action (intentStatusToString intent_status))
  else
    .ok ()

/-- Modelled from the spec: `helpers::get_address_by_id` is not among the
excerpted sources. Per the spec, GetTracker "resolves associated
addresses": a missing reference resolves to no address, a present
reference to the stored row (if any). Read-only. -/
def get_address_by_id (st : Store) (address_id : Option String) : Option Address :=
  match address_id with
  | none => none
  | some id => find_address st id

/-- The runtime value of `cfg!(feature = "frm")` in `get_trackers`; the
fraud-check lookup is compiled in (the shipped configuration). -/
def frm_feature_enabled : Bool := true

/-- The payment address aggregate built by `PaymentAddress::new`; the
constructor body lives outside the excerpted sources, so the aggregate
records its four arguments. -/
structure PaymentAddress where
  shipping : Option Address
  billing : Option Address
  payment_method_billing : Option Address
  use_billing_as_payment_method_billing : Option Bool
  deriving DecidableEq, Repr

/-- The payment Working Set (`PaymentData`), restricted to the fields the
reject operation reads or writes. The remaining fields of the Rust
struct are all set to `None` / empty by `PaymentReject::get_trackers`
and are never read by this operation. -/
structure PaymentData where
  payment_intent : PaymentIntent
  payment_attempt : PaymentAttempt
  currency : Currency
  amount : Int
  address : PaymentAddress
  frm_message : Option FraudCheck
  deriving DecidableEq, Repr

/-- The result of a successful `get_trackers` call (the fields of
`operations::GetTrackerResponse` carried by this operation). -/
structure GetTrackerResponse where
  payment_data : PaymentData
  business_profile : BusinessProfile
  deriving DecidableEq, Repr

/-- `PaymentReject::get_trackers`: loads the intent, runs the status
guard with forbidden set {Cancelled, Failed, Succeeded, Processing} and
operation name "reject", loads the active attempt, resolves the three
addresses, requires the attempt currency, optionally loads the fraud
check, requires the profile reference (a missing `profile_id` is an
`InternalServerError`), loads the business profile (a missing row is
`ProfileNotFound`), and assembles the Working Set. Every storage access
is a read, so the returned store is the input store on every path. -/
def get_trackers (st : Store) (payment_id : PaymentIdType) (mc : MerchantContext) :
    Except ApiErrorResponse GetTrackerResponse × Store :=
  match payment_id.get_payment_intent_id with
  | none => (.error .PaymentNotFound, st)
  | some pid =>
  match find_payment_intent st pid mc.merchant_id with
  | none => (.error .PaymentNotFound, st)
  | some payment_intent =>
  match validate_payment_status_against_not_allowed_statuses payment_intent.status
      [.Cancelled, .Failed, .Succeeded, .Processing] "reject" with
  | .error e => (.error e, st)
  | .ok _ =>
  match find_payment_attempt st payment_intent.payment_id mc.merchant_id
      payment_intent.active_attempt_id with
  | none => (.error .PaymentNotFound, st)
  | some payment_attempt =>
  let shipping_address := get_address_by_id st payment_intent.shipping_address_id
  let billing_address := get_address_by_id st payment_intent.billing_address_id
  let payment_method_billing :=
    get_address_by_id st payment_attempt.payment_method_billing_address_id
  match payment_attempt.currency with
  | none => (.error (.MissingRequiredField "currency"), st)
  | some currency =>
  let amount := payment_attempt.amount
  let frm_response :=
    if frm_feature_enabled then
      find_fraud_check st payment_intent.payment_id mc.merchant_id
    else none
  match payment_intent.profile_id with
  | none => (.error .InternalServerError, st)
  | some profile_id =>
  match find_business_profile st profile_id with
  | none => (.error (.ProfileNotFound profile_id), st)
  | some business_profile =>
  (.ok
    { payment_data :=
      { payment_intent := payment_intent
        payment_attempt := payment_attempt
        currency := currency
        amount := amount
        address :=
          { shipping := shipping_address
            billing := billing_address
            payment_method_billing := payment_method_billing
            use_billing_as_payment_method_billing :=
              business_profile.use_billing_as_payment_method_billing }
        frm_message := frm_response }
      business_profile := business_profile }, st)

/-- The typed intent update built by the reject flow
(`storage::PaymentIntentUpdate::RejectUpdate`). -/
structure PaymentIntentRejectUpdate where
  status : IntentStatus
  merchant_decision : Option String
  updated_by : String
  deriving DecidableEq, Repr

/-- The typed attempt update built by the reject flow
(`storage::PaymentAttemptUpdate::RejectUpdate`). The error fields are
doubly optional, following the changeset convention: an outer `none`
leaves the stored column untouched, `some v` sets the column to `v`. -/
structure PaymentAttemptRejectUpdate where
  status : AttemptStatus
  error_code : Option (Option String)
  error_message : Option (Option String)
  updated_by : String
  deriving DecidableEq, Repr

/-- Modelled from the spec: application of the typed intent update to a
row; the storage engine's update implementation is out of scope for the
excerpted sources. Per the spec, persistence happens field-by-field
through the explicit update statement, with the changeset convention
that an absent optional field leaves the column untouched. -/
def applyIntentRejectUpdate (i : PaymentIntent) (u : PaymentIntentRejectUpdate) :
    PaymentIntent :=
  { i with
    status := u.status
    merchant_decision :=
      match u.merchant_decision with
      | some v => some v
      | none => i.merchant_decision
    updated_by := u.updated_by }

/-- Modelled from the spec: application of the typed attempt update to a
row, with the doubly-optional changeset convention on the error fields
(outer `none` leaves the column untouched, `some v` sets it to `v`). -/
def applyAttemptRejectUpdate (a : PaymentAttempt) (u : PaymentAttemptRejectUpdate) :
    PaymentAttempt :=
  { a with
    status := u.status
    error_code :=
      match u.error_code with
      | some v => v
      | none => a.error_code
    error_message :=
      match u.error_message with
      | some v => v
      | none => a.error_message
    updated_by := u.updated_by }

/-- `update_payment_intent`: applies the typed update to the passed
intent and persists the result in the row keyed by the intent's
payment/merchant id. Fails (returning the untouched store) if the row
has vanished; the call site turns that into `PaymentNotFound`. -/
def update_payment_intent (st : Store) (intent : PaymentIntent)
    (u : PaymentIntentRejectUpdate) : Option PaymentIntent × Store :=
  match find_payment_intent st intent.payment_id intent.merchant_id with
  | none => (none, st)
  | some _ =>
    let updated := applyIntentRejectUpdate intent u
    (some updated,
      { st with
        intents := st.intents.map (fun i =>
          if i.payment_id == intent.payment_id && i.merchant_id == intent.merchant_id
          then updated else i) })

/-- `update_payment_attempt_with_attempt_id`: applies the typed update
to the passed attempt and persists the result in the row keyed by the
attempt's payment/merchant/attempt id. Fails (returning the untouched
store) if the row has vanished. -/
def update_payment_attempt_with_attempt_id (st : Store) (attempt : PaymentAttempt)
    (u : PaymentAttemptRejectUpdate) : Option PaymentAttempt × Store :=
  match find_payment_attempt st attempt.payment_id attempt.merchant_id
      attempt.attempt_id with
  | none => (none, st)
  | some _ =>
    let updated := applyAttemptRejectUpdate attempt u
    (some updated,
      { st with
        attempts := st.attempts.map (fun a =>
          if a.payment_id == attempt.payment_id && a.merchant_id == attempt.merchant_id
              && a.attempt_id == attempt.attempt_id
          then updated else a) })

/-- The audit event emitted by the reject flow
(`AuditEventType::PaymentReject`). -/
structure AuditEventPaymentReject where
  error_code : Option String
  error_message : Option String
  deriving DecidableEq, Repr

/-- The intent update statement built at the top of `update_trackers`. -/
def reject_intent_update (storage_scheme : MerchantStorageScheme) :
    PaymentIntentRejectUpdate :=
  { status := .Failed
    merchant_decision := some (merchantDecisionToString .Rejected)
    updated_by := storageSchemeToString storage_scheme }

/-- The `(error_code, error_message)` pair computed from the Working
Set's fraud-check result in `update_trackers`: absent fraud check gives
`(None, None)`; a present one gives the rendered fraud status and the
rendered (optional) fraud reason. -/
def reject_error_fields (frm_message : Option FraudCheck) :
    Option (Option String) × Option (Option String) :=
  match frm_message with
  | none => (none, none)
  | some fraud_check =>
    (some (some (frmStatusToString fraud_check.frm_status)),
     some fraud_check.frm_reason)

/-- The attempt update statement built in `update_trackers`. -/
def reject_attempt_update (frm_message : Option FraudCheck)
    (storage_scheme : MerchantStorageScheme) : PaymentAttemptRejectUpdate :=
  { status := .Failure
    error_code := (reject_error_fields frm_message).1
    error_message := (reject_error_fields frm_message).2
    updated_by := storageSchemeToString storage_scheme }

/-- `PaymentReject::update_trackers`: builds the two typed update
statements, issues the intent update first and the attempt update
second, stores the updated rows back into the Working Set, and emits one
audit event carrying the updated attempt's error code and message. The
returned list holds the events emitted by the invocation; the returned
store is the store at the point the function returns (also on the error
paths, which makes the partial-commit window visible). -/
def update_trackers (st : Store) (payment_data : PaymentData)
    (storage_scheme : MerchantStorageScheme) :
    Except ApiErrorResponse (PaymentData × List AuditEventPaymentReject) × Store :=
  let intent_status_update := reject_intent_update storage_scheme
  let attempt_status_update :=
    reject_attempt_update payment_data.frm_message storage_scheme
  match update_payment_intent st payment_data.payment_intent intent_status_update with
  | (none, st1) => (.error .PaymentNotFound, st1)
  | (some new_intent, st1) =>
  match update_payment_attempt_with_attempt_id st1 payment_data.payment_attempt
      attempt_status_update with
  | (none, st2) => (.error .PaymentNotFound, st2)
  | (some new_attempt, st2) =>
    let payment_data2 :=
      { payment_data with
        payment_intent := new_intent
        payment_attempt := new_attempt }
    let error_code := payment_data2.payment_attempt.error_code
    let error_message := payment_data2.payment_attempt.error_message
    (.ok (payment_data2,
      [{ error_code := error_code, error_message := error_message }]), st2)

/-- Storage-layer error distinguished by `is_db_unique_violation`. -/
inductive StorageError where
  | UniqueViolation
  | Other
  deriving DecidableEq, Repr

/-- `error.current_context().is_db_unique_violation()`. -/
def StorageError.is_db_unique_violation : StorageError → Bool
  | .UniqueViolation => true
  | .Other => false

/-- `insert_customer`: fails with a unique-constraint violation when a
row with the same `(customer_id, merchant_id)` natural key already
exists, otherwise appends the new row. -/
def insert_customer (st : Store) (new_customer : CustomerNew) :
    Except StorageError Customer × Store :=
  if (find_customer st new_customer.customer_id new_customer.merchant_id).isSome then
    (.error .UniqueViolation, st)
  else
    let customer := new_customer.toCustomer
    (.ok customer, { st with customers := st.customers ++ [customer] })

/-- The error-recovery match at the heart of `create_customer`: a
successful insert is returned as is; an insert error that is a unique
violation triggers the compensating fetch (whose own failure becomes
`InternalServerError`); any other insert error becomes
`InternalServerError`. -/
def create_customer_match (insert_result : Except StorageError Customer)
    (fetch_result : Except StorageError Customer) : Except ApiErrorResponse Customer :=
  match insert_result with
  | .ok customer => .ok customer
  | .error e =>
    if e.is_db_unique_violation then
      match fetch_result with
      | .ok customer => .ok customer
      | .error _ => .error .InternalServerError
    else
      .error .InternalServerError

/-- `create_customer` over the store model, starting from the validated
`CustomerNew` record (request validation and field copying precede the
excerpted match and are not at issue here). The compensating fetch is
`find_customer_by_customer_id_merchant_id` on the natural key. -/
def create_customer (st : Store) (new_customer : CustomerNew) :
    Except ApiErrorResponse Customer × Store :=
  let (insert_result, st1) := insert_customer st new_customer
  let fetch_result : Except StorageError Customer :=
    match find_customer st1 new_customer.customer_id new_customer.merchant_id with
    | some customer => .ok customer
    | none => .error .Other
  (create_customer_match insert_result fetch_result, st1)

/-- Response shape of `delete_customer`
(`customers::CustomerDeleteResponse`). -/
structure CustomerDeleteResponse where
  customer_id : String
  customer_deleted : Bool
  address_deleted : Bool
  payment_methods_deleted : Bool
  deriving DecidableEq, Repr

/-- `delete_payment_method_by_merchant_id_payment_method_id`: removes
the row; the loop in `delete_customer` only deletes rows it has just
listed, so the not-found error path is unreachable there. -/
def delete_payment_method (st : Store) (merchant_id payment_method_id : String) : Store :=
  { st with
    payment_methods := st.payment_methods.filter (fun p =>
      !(p.merchant_id == merchant_id && p.payment_method_id == payment_method_id)) }

/-- The concrete `AddressUpdate::Update` built by `delete_customer`
applied to a row: every personal field is overwritten with the literal
"Redacted". -/
def redactAddress (a : Address) : Address :=
  { a with
    city := some "Redacted"
    country := some "Redacted"
    line1 := some "Redacted"
    line2 := some "Redacted"
    line3 := some "Redacted"
    state := some "Redacted"
    zip := some "Redacted"
    first_name := some "Redacted"
    last_name := some "Redacted"
    phone_number := some "Redacted"
    country_code := some "Redacted" }

/-- `update_address_by_merchant_id_customer_id` with the redaction
update: rewrites every address row of the customer. -/
def update_addresses_redacted (st : Store) (customer_id merchant_id : String) : Store :=
  { st with
    addresses := st.addresses.map (fun a =>
      if a.customer_id == some customer_id && a.merchant_id == merchant_id
      then redactAddress a else a) }

/-- The concrete `CustomerUpdate::Update` built by `delete_customer`
applied to a row: the personal fields are overwritten with the literal
"Redacted"; `metadata` is passed as `None`, which under the changeset
convention leaves the stored column untouched. -/
def redactCustomer (c : Customer) : Customer :=
  { c with
    name := some "Redacted"
    email := some "Redacted"
    phone := some "Redacted"
    description := some "Redacted"
    phone_country_code := some "Redacted" }

/-- `update_customer_by_customer_id_merchant_id` with the redaction
update: fails (store untouched) if the row is absent, otherwise rewrites
the row keyed by the natural key. -/
def update_customer_redacted (st : Store) (customer_id merchant_id : String) :
    Option Customer × Store :=
  match find_customer st customer_id merchant_id with
  | none => (none, st)
  | some customer =>
    let updated := redactCustomer customer
    (some updated,
      { st with
        customers := st.customers.map (fun c =>
          if c.customer_id == customer_id && c.merchant_id == merchant_id
          then updated else c) })

/-- `delete_customer`: finds the customer, rejects an already-redacted
customer and a customer with an active mandate (both before any write),
deletes the customer's payment-method rows (the per-card vault deletion
`cards::delete_card` is an external locker call with no effect on the
modelled store), redacts the customer's addresses and the customer row
itself, and reports all three deletion flags as true. The customer row
is never removed from the store. -/
def delete_customer (st : Store) (merchant_id customer_id : String) :
    Except ApiErrorResponse CustomerDeleteResponse × Store :=
  match find_customer st customer_id merchant_id with
  | none => (.error .CustomerNotFound, st)
  | some cust =>
  if cust.name == some "Redacted" then
    (.error .CustomerRedacted, st)
  else
  let customer_mandates := find_mandates st merchant_id customer_id
  if customer_mandates.any (fun m => m.mandate_status == .Active) then
    (.error .MandateActive, st)
  else
  let customer_payment_methods := find_payment_methods st customer_id merchant_id
  let st1 := customer_payment_methods.foldl
    (fun s pm => delete_payment_method s merchant_id pm.payment_method_id) st
  let st2 := update_addresses_redacted st1 customer_id merchant_id
  match update_customer_redacted st2 customer_id merchant_id with
  | (none, st3) => (.error .CustomerNotFound, st3)
  | (some _, st3) =>
    (.ok
      { customer_id := customer_id
        customer_deleted := true
        address_deleted := true
        payment_methods_deleted := true }, st3)

/-- Sample payment intent in a cancellable state, scenario `pay_1`. -/
def sampleIntent : PaymentIntent :=
  { payment_id := "pay_1"
    merchant_id := "m_1"
    status := .RequiresCapture
    active_attempt_id := "att_1"
    shipping_address_id := none
    billing_address_id := none
    profile_id := some "prof_1"
    merchant_decision := none
    updated_by := "" }

/-- Sample active attempt for `pay_1`. -/
def sampleAttempt : PaymentAttempt :=
  { attempt_id := "att_1"
    payment_id := "pay_1"
    merchant_id := "m_1"
    status := .Pending
    currency := some .USD
    amount := 100
    error_code := none
    error_message := none
    payment_method_billing_address_id := none
    updated_by := "" }

/-- Sample business profile for `pay_1`. -/
def sampleProfile : BusinessProfile :=
  { profile_id := "prof_1", use_billing_as_payment_method_billing := none }

/-- Sample store holding `pay_1` ready for a reject. -/
def sampleStore : Store :=
  { intents := [sampleIntent]
    attempts := [sampleAttempt]
    addresses := []
    profiles := [sampleProfile]
    fraud_checks := []
    customers := []
    mandates := []
    payment_methods := [] }

/-- Sample merchant context of merchant `m_1`. -/
def sampleMC : MerchantContext :=
  { merchant_id := "m_1", storage_scheme := .PostgresOnly }

/-- Sample store whose `pay_1` intent has already succeeded. -/
def sampleStoreSucceeded : Store :=
  { sampleStore with intents := [{ sampleIntent with status := .Succeeded }] }

/-- Sample store whose `pay_1` intent lacks a profile reference. -/
def sampleStoreNoProfileId : Store :=
  { sampleStore with intents := [{ sampleIntent with profile_id := none }] }

/-- Sample store whose `pay_1` intent references an absent profile row. -/
def sampleStoreNoProfileRow : Store :=
  { sampleStore with profiles := [] }

/-- The Working Set `get_trackers` assembles for `pay_1` in
`sampleStore`. -/
def samplePaymentData : PaymentData :=
  { payment_intent := sampleIntent
    payment_attempt := sampleAttempt
    currency := .USD
    amount := 100
    address :=
      { shipping := none
        billing := none
        payment_method_billing := none
        use_billing_as_payment_method_billing := none }
    frm_message := none }

/-- The `pay_1` intent after the reject intent update. -/
def sampleIntentRejected : PaymentIntent :=
  { sampleIntent with
    status := .Failed
    merchant_decision := some "rejected"
    updated_by := "postgres_only" }

/-- The `att_1` attempt after the reject attempt update (no fraud check,
so the error fields keep their stored values). -/
def sampleAttemptRejected : PaymentAttempt :=
  { sampleAttempt with status := .Failure, updated_by := "postgres_only" }

/-- The store after `update_trackers` rejects `pay_1`. -/
def sampleStoreRejected : Store :=
  { sampleStore with
    intents := [sampleIntentRejected]
    attempts := [sampleAttemptRejected] }

/-- The Working Set after `update_trackers` rejects `pay_1`. -/
def samplePaymentDataRejected : PaymentData :=
  { samplePaymentData with
    payment_intent := sampleIntentRejected
    payment_attempt := sampleAttemptRejected }

/-- Sample fraud-check record flagging `pay_1` as fraud. -/
def sampleFraudCheck : FraudCheck :=
  { payment_id := "pay_1"
    merchant_id := "m_1"
    frm_status := .Fraud
    frm_reason := some "card reported stolen" }

/-- Sample new-customer record for `(cust_1, m_1)`. -/
def sampleCustomerNew : CustomerNew :=
  { customer_id := "cust_1"
    merchant_id := "m_1"
    name := some "Ann"
    email := some "ann@example.com"
    phone := none
    description := none
    phone_country_code := none
    metadata := some "md" }

/-- Sample address row of customer `(cust_1, m_1)`. -/
def sampleAddress : Address :=
  { address_id := "addr_1"
    customer_id := some "cust_1"
    merchant_id := "m_1"
    city := some "Berlin"
    country := some "DE"
    line1 := some "Main Street 1"
    line2 := none
    line3 := none
    state := none
    zip := some "10115"
    first_name := some "Ann"
    last_name := some "Doe"
    phone_number := none
    country_code := none }

/-- Sample store holding customer `(cust_1, m_1)` with one inactive
mandate, one address and one non-card payment method. -/
def sampleCustomerStore : Store :=
  { intents := []
    attempts := []
    addresses := [sampleAddress]
    profiles := []
    fraud_checks := []
    customers := [sampleCustomerNew.toCustomer]
    mandates :=
      [{ mandate_id := "man_1"
         merchant_id := "m_1"
         customer_id := "cust_1"
         mandate_status := .Revoked }]
    payment_methods :=
      [{ payment_method_id := "pm_1"
         customer_id := "cust_1"
         merchant_id := "m_1"
         payment_method := .Wallet }] }

/-- The sample customer store after `delete_customer`: the payment
method is deleted, the address and the customer row are redacted; the
customer row itself is still present. -/
def sampleCustomerStoreDeleted : Store :=
  { sampleCustomerStore with
    addresses := [redactAddress sampleAddress]
    customers := [redactCustomer sampleCustomerNew.toCustomer]
    payment_methods := [] }

/-- Sample store whose customer `(cust_1, m_1)` is already redacted. -/
def sampleCustomerStoreRedacted : Store :=
  { sampleCustomerStore with
    customers := [{ sampleCustomerNew.toCustomer with name := some "Redacted" }] }

/-- Sample store whose customer `(cust_1, m_1)` has an active mandate. -/
def sampleCustomerStoreActiveMandate : Store :=
  { sampleCustomerStore with
    mandates :=
      [{ mandate_id := "man_1"
         merchant_id := "m_1"
         customer_id := "cust_1"
         mandate_status := .Active }] }

/-- Signed payload envelope (`encryption::JwsBody`); strings are
modelled as character lists in the envelope code. -/
structure JwsBody where
  header : List Char
  payload : List Char
  signature : List Char
  deriving DecidableEq, Repr

/-- Encrypted payload envelope (`encryption::JweBody`). -/
structure JweBody where
  header : List Char
  iv : List Char
  encrypted_payload : List Char
  tag : List Char
  encrypted_key : List Char
  deriving DecidableEq, Repr

/-- `get_dotted_jwe`: serializes the five envelope parts joined by
dots, in the order header, encrypted key, iv, encrypted payload, tag. -/
def get_dotted_jwe (jwe : JweBody) : List Char :=
  jwe.header ++ ['.'] ++ jwe.encrypted_key ++ ['.'] ++ jwe.iv ++ ['.']
    ++ jwe.encrypted_payload ++ ['.'] ++ jwe.tag

/-- `get_dotted_jws`: serializes the three signed parts joined by dots. -/
def get_dotted_jws (jws : JwsBody) : List Char :=
  jws.header ++ ['.'] ++ jws.payload ++ ['.'] ++ jws.signature

/-- The `generate_jws_body` closure of `mk_basilisk_req`: takes segments
0, 1, 2 of the dot-split input, yielding `None` when fewer than three
segments exist. -/
def generate_jws_body (payload : List (List Char)) : Option JwsBody :=
  do
    let header ← payload.head?
    let body ← payload.get? 1
    let signature ← payload.get? 2
    pure { header := header, payload := body, signature := signature }

/-- The `generate_jwe_body` closure of `mk_basilisk_req`: takes segments
0, 2, 3, 4, 1 of the dot-split input for header, iv, encrypted payload,
tag and encrypted key respectively, yielding `None` when fewer than five
segments exist. -/
def generate_jwe_body (payload : List (List Char)) : Option JweBody :=
  do
    let header ← payload.head?
    let iv ← payload.get? 2
    let encrypted_payload ← payload.get? 3
    let tag ← payload.get? 4
    let encrypted_key ← payload.get? 1
    pure
      { header := header
        iv := iv
        encrypted_payload := encrypted_payload
        tag := tag
        encrypted_key := encrypted_key }

/-- `mk_basilisk_req`: splits the signed input into a `JwsBody`, encodes
it, encrypts it (both collaborator steps are passed in as functions;
their own failure modes are also surfaced as `VaultError` in the source
and are not at issue in the split round-trip), splits the ciphertext
into a `JweBody`, and fails with `VaultError::SaveCardFailed` whenever
either split yields too few segments. -/
def mk_basilisk_req (encode_to_vec : JwsBody → List Char)
    (encrypt_jwe : List Char → List Char) (jws : List Char) :
    Except VaultError JweBody :=
  let jws_payload := jws.splitOn '.'
  match generate_jws_body jws_payload with
  | none => .error .SaveCardFailed
  | some jws_body =>
    let payload := encode_to_vec jws_body
    let jwe_encrypted := encrypt_jwe payload
    let jwe_payload := jwe_encrypted.splitOn '.'
    match generate_jwe_body jwe_payload with
    | none => .error .SaveCardFailed
    | some jwe_body => .ok jwe_body

/-- Replacing every row matched by `p` with a row `a` that itself
matches `p` makes `find?` return `a`, provided some row matched. -/
theorem find_replace {α : Type} (l : List α) (p : α → Bool) (a : α)
    (h : (l.find? p).isSome = true) (ha : p a = true) :
    (l.map (fun x => if p x then a else x)).find? p = some a := by
  induction l with
  | nil => simp [List.find?] at h
  | cons x xs ih =>
    by_cases hx : p x = true
    · simp only [List.map_cons, if_pos hx]
      exact List.find?_cons_of_pos _ ha
    · rw [List.find?_cons_of_neg _ hx] at h
      simp only [List.map_cons, if_neg hx]
      rw [List.find?_cons_of_neg _ hx]
      exact ih h

/-- Characterization of a successful intent update: the returned row is
the typed update applied to the passed intent, every other table is
untouched, and re-reading the intent by its key yields the new row. -/
theorem update_payment_intent_ok (st : Store) (intent : PaymentIntent)
    (u : PaymentIntentRejectUpdate) (ni : PaymentIntent) (st1 : Store)
    (h : update_payment_intent st intent u = (some ni, st1)) :
    ni = applyIntentRejectUpdate intent u
    ∧ st1.attempts = st.attempts
    ∧ st1.addresses = st.addresses
    ∧ st1.customers = st.customers
    ∧ find_payment_intent st1 intent.payment_id intent.merchant_id = some ni := by
  unfold update_payment_intent at h
  cases hf : find_payment_intent st intent.payment_id intent.merchant_id with
  | none => rw [hf] at h; simp at h
  | some i0 =>
    rw [hf] at h
    simp only [Prod.mk.injEq, Option.some.injEq] at h
    obtain ⟨hni, hst⟩ := h
    subst hni
    subst hst
    refine ⟨rfl, rfl, rfl, rfl, ?_⟩
    unfold find_payment_intent at hf ⊢
    apply find_replace
    · rw [hf]; rfl
    · simp [applyIntentRejectUpdate]

/-- Characterization of a successful attempt update, the counterpart of
the intent-update characterization. -/
theorem update_payment_attempt_ok (st : Store) (attempt : PaymentAttempt)
    (u : PaymentAttemptRejectUpdate) (na : PaymentAttempt) (st2 : Store)
    (h : update_payment_attempt_with_attempt_id st attempt u = (some na, st2)) :
    na = applyAttemptRejectUpdate attempt u
    ∧ st2.intents = st.intents
    ∧ st2.addresses = st.addresses
    ∧ st2.customers = st.customers
    ∧ find_payment_attempt st2 attempt.payment_id attempt.merchant_id
        attempt.attempt_id = some na := by
  unfold update_payment_attempt_with_attempt_id at h
  cases hf : find_payment_attempt st attempt.payment_id attempt.merchant_id
      attempt.attempt_id with
  | none => rw [hf] at h; simp at h
  | some a0 =>
    rw [hf] at h
    simp only [Prod.mk.injEq, Option.some.injEq] at h
    obtain ⟨hna, hst⟩ := h
    subst hna
    subst hst
    refine ⟨rfl, rfl, rfl, rfl, ?_⟩
    unfold find_payment_attempt at hf ⊢
    apply find_replace
    · rw [hf]; rfl
    · simp [applyAttemptRejectUpdate]

/-- Inversion of a successful `update_trackers` run into its two update
calls, the Working Set rewrite, and the emitted event list. -/
theorem update_trackers_ok (st : Store) (pd : PaymentData)
    (scheme : MerchantStorageScheme) (pd2 : PaymentData)
    (evs : List AuditEventPaymentReject) (st2 : Store)
    (h : update_trackers st pd scheme = (.ok (pd2, evs), st2)) :
    ∃ st1 ni na,
      update_payment_intent st pd.payment_intent (reject_intent_update scheme)
        = (some ni, st1)
      ∧ update_payment_attempt_with_attempt_id st1 pd.payment_attempt
          (reject_attempt_update pd.frm_message scheme) = (some na, st2)
      ∧ pd2 = { pd with payment_intent := ni, payment_attempt := na }
      ∧ evs = [{ error_code := na.error_code, error_message := na.error_message }] := by
  simp only [update_trackers] at h
  split at h
  · simp at h
  · rename_i ni st1 heq
    split at h
    · simp at h
    · rename_i na st2x heq2
      simp only [Prod.mk.injEq, Except.ok.injEq] at h
      obtain ⟨⟨hpd, hevs⟩, hst⟩ := h
      subst hst
      exact ⟨st1, ni, na, heq, heq2, hpd.symm, hevs.symm⟩

/-- Too few dot-separated segments make the JWE body constructor fail. -/
theorem generate_jwe_body_short :
    ∀ (l : List (List Char)), l.length < 5 → generate_jwe_body l = none
  | [], _ => rfl
  | [_], _ => rfl
  | [_, _], _ => rfl
  | [_, _, _], _ => rfl
  | [_, _, _, _], _ => rfl
  | _ :: _ :: _ :: _ :: _ :: _, h => by simp only [List.length_cons] at h; omega

/-- Dotted interleaving of five segments, written as `intercalate`. -/
theorem intercalate_five (a b c d e : List Char) :
    List.intercalate ['.'] [a, b, c, d, e]
      = a ++ ['.'] ++ b ++ ['.'] ++ c ++ ['.'] ++ d ++ ['.'] ++ e := by
  simp [List.intercalate, List.intersperse]

/-- C10: a string of exactly five dot-separated segments split as in
`mk_basilisk_req` (header, encrypted key, iv, encrypted payload, tag
from segments 0, 1, 2, 3, 4) re-serializes to the original string under
`get_dotted_jwe`; with fewer than five segments the body construction
yields `none` and `mk_basilisk_req` fails with a `VaultError` instead of
panicking. -/
theorem jwe_split_roundtrip :
    (∀ (s a b c d e : List Char), s.splitOn '.' = [a, b, c, d, e] →
      generate_jwe_body (s.splitOn '.')
        = some { header := a, iv := c, encrypted_payload := d, tag := e,
                 encrypted_key := b }
      ∧ get_dotted_jwe
          { header := a, iv := c, encrypted_payload := d, tag := e,
            encrypted_key := b } = s)
    ∧ (∀ s : List Char, (s.splitOn '.').length < 5 →
        generate_jwe_body (s.splitOn '.') = none)
    ∧ (∀ (encode_to_vec : JwsBody → List Char)
        (encrypt_jwe : List Char → List Char) (jws : List Char) (jb : JwsBody),
        generate_jws_body (jws.splitOn '.') = some jb →
        ((encrypt_jwe (encode_to_vec jb)).splitOn '.').length < 5 →
        mk_basilisk_req encode_to_vec encrypt_jwe jws = .error .SaveCardFailed) := by
  refine ⟨?_, ?_, ?_⟩
  · intro s a b c d e h
    constructor
    · rw [h]
      simp [generate_jwe_body]
    · have hs : List.intercalate ['.'] (s.splitOn '.') = s :=
        List.intercalate_splitOn s '.'
      rw [h, intercalate_five] at hs
      simpa [get_dotted_jwe] using hs
  · intro s h
    exact generate_jwe_body_short _ h
  · intro encode_to_vec encrypt_jwe jws jb hjb hshort
    simp only [mk_basilisk_req]
    rw [hjb]
    simp only [generate_jwe_body_short _ hshort]

/-- Witness for C10 at concrete inputs. -/
theorem jwe_split_roundtrip_witness :
    ("hh.kk.iv.pp.tt".toList.splitOn '.'
        = ["hh".toList, "kk".toList, "iv".toList, "pp".toList, "tt".toList])
    ∧ get_dotted_jwe
        { header := "hh".toList, iv := "iv".toList,
          encrypted_payload := "pp".toList, tag := "tt".toList,
          encrypted_key := "kk".toList } = "hh.kk.iv.pp.tt".toList
    ∧ generate_jwe_body ("h.p.s".toList.splitOn '.') = none
    ∧ mk_basilisk_req (fun _ => "x.y".toList) (fun v => v) "h.p.s".toList
        = .error .SaveCardFailed := by
  refine ⟨by decide, ?_, ?_, ?_⟩
  · exact ((jwe_split_roundtrip.1 "hh.kk.iv.pp.tt".toList "hh".toList "kk".toList
      "iv".toList "pp".toList "tt".toList (by decide)).2)
  · exact jwe_split_roundtrip.2.1 "h.p.s".toList (by decide)
  · exact jwe_split_roundtrip.2.2 (fun _ => "x.y".toList) (fun v => v)
      "h.p.s".toList
      { header := "h".toList, payload := "p".toList, signature := "s".toList }
      (by decide) (by decide)

/-- C1: for every stored intent whose status lies in {Cancelled, Failed,
Succeeded, Processing}, the reject GetTracker fails with an
`InvalidStatusTransition` naming the operation "reject" and the
offending status and leaves the store unchanged; every status outside
that set passes the guard; and GetTracker issues no write on any path
(the store it returns is always its input store). -/
theorem reject_guard_forbidden_statuses (st : Store) (pid : String)
    (mc : MerchantContext) (i : PaymentIntent)
    (hfind : find_payment_intent st pid mc.merchant_id = some i)
    (hbad : i.status ∈ [IntentStatus.Cancelled, IntentStatus.Failed,
      IntentStatus.Succeeded, IntentStatus.Processing]) :
    get_trackers st (.PaymentIntentId pid) mc
      = (.error (.InvalidStatusTransition "reject" (intentStatusToString i.status)), st)
    ∧ (∀ s : IntentStatus,
        s ∉ [IntentStatus.Cancelled, IntentStatus.Failed,
          IntentStatus.Succeeded, IntentStatus.Processing] →
        validate_payment_status_against_not_allowed_statuses s
          [IntentStatus.Cancelled, IntentStatus.Failed,
           IntentStatus.Succeeded, IntentStatus.Processing] "reject" = .ok ())
    ∧ (∀ (st2 : Store) (p : PaymentIdType) (m : MerchantContext),
        (get_trackers st2 p m).2 = st2) := by
  refine ⟨?_, ?_, ?_⟩
  · simp only [get_trackers, PaymentIdType.get_payment_intent_id]
    rw [hfind]
    simp [validate_payment_status_against_not_allowed_statuses, hbad]
  · intro s hs
    simp [validate_payment_status_against_not_allowed_statuses, hs]
  · intro st2 p m
    unfold get_trackers
    repeat' split
    all_goals rfl

/-- Witness for C1: rejecting the succeeded `pay_1` fails the guard. -/
theorem reject_guard_forbidden_statuses_witness :
    find_payment_intent sampleStoreSucceeded "pay_1" sampleMC.merchant_id
      = some { sampleIntent with status := .Succeeded }
    ∧ get_trackers sampleStoreSucceeded (.PaymentIntentId "pay_1") sampleMC
      = (.error (.InvalidStatusTransition "reject" "succeeded"), sampleStoreSucceeded) :=
  ⟨by decide,
   (reject_guard_forbidden_statuses sampleStoreSucceeded "pay_1" sampleMC
      { sampleIntent with status := .Succeeded } (by decide) (by decide)).1⟩

/-- C7 counterexample: `pay_1` with no `profile_id` set passes the guard
but GetTracker fails with `InternalServerError`, not `ProfileNotFound`
as the claim states for a missing profile reference. -/
theorem reject_profile_missing_counterexample :
    (get_trackers sampleStoreNoProfileId (.PaymentIntentId "pay_1") sampleMC).1
      = .error .InternalServerError := rfl

/-- C7 as amended: a missing profile reference on the intent makes the
reject GetTracker fail with `InternalServerError`; a present reference
whose profile row cannot be resolved makes it fail with
`ProfileNotFound` carrying that reference. -/
theorem reject_profile_errors (st : Store) (pid : String) (mc : MerchantContext)
    (i : PaymentIntent) (a : PaymentAttempt) (c : Currency)
    (hfind : find_payment_intent st pid mc.merchant_id = some i)
    (hok : i.status ∉ [IntentStatus.Cancelled, IntentStatus.Failed,
      IntentStatus.Succeeded, IntentStatus.Processing])
    (hatt : find_payment_attempt st i.payment_id mc.merchant_id
      i.active_attempt_id = some a)
    (hcur : a.currency = some c) :
    (i.profile_id = none →
      (get_trackers st (.PaymentIntentId pid) mc).1 = .error .InternalServerError)
    ∧ (∀ p, i.profile_id = some p → find_business_profile st p = none →
        (get_trackers st (.PaymentIntentId pid) mc).1
          = .error (.ProfileNotFound p)) := by
  constructor
  · intro hp
    simp only [get_trackers, PaymentIdType.get_payment_intent_id]
    rw [hfind]
    simp [validate_payment_status_against_not_allowed_statuses, hok, hatt,
      hcur, hp, frm_feature_enabled]
  · intro p hp hprof
    simp only [get_trackers, PaymentIdType.get_payment_intent_id]
    rw [hfind]
    simp [validate_payment_status_against_not_allowed_statuses, hok, hatt,
      hcur, hp, hprof, frm_feature_enabled]

/-- Witness for the amended C7 at the two sample stores. -/
theorem reject_profile_errors_witness :
    (get_trackers sampleStoreNoProfileId (.PaymentIntentId "pay_1") sampleMC).1
        = .error .InternalServerError
    ∧ (get_trackers sampleStoreNoProfileRow (.PaymentIntentId "pay_1") sampleMC).1
        = .error (.ProfileNotFound "prof_1") :=
  ⟨(reject_profile_errors sampleStoreNoProfileId "pay_1" sampleMC
      { sampleIntent with profile_id := none } sampleAttempt .USD
      (by decide) (by decide) (by decide) (by decide)).1 rfl,
   (reject_profile_errors sampleStoreNoProfileRow "pay_1" sampleMC
      sampleIntent sampleAttempt .USD
      (by decide) (by decide) (by decide) (by decide)).2 "prof_1" rfl (by decide)⟩

/-- C3: whenever the reject UpdateTracker returns successfully, the
Working Set's intent is Failed with merchant decision Rejected, the
attempt is Failure, both rows are persisted through their respective
typed update statements (re-reading them from the resulting store yields
exactly the updated rows), and the emitted audit event carries the
resulting error code and message. -/
theorem reject_update_trackers_transitions (st : Store) (pd : PaymentData)
    (scheme : MerchantStorageScheme) (pd2 : PaymentData)
    (evs : List AuditEventPaymentReject) (st2 : Store)
    (h : update_trackers st pd scheme = (.ok (pd2, evs), st2)) :
    pd2.payment_intent.status = .Failed
    ∧ pd2.payment_intent.merchant_decision
        = some (merchantDecisionToString .Rejected)
    ∧ pd2.payment_attempt.status = .Failure
    ∧ find_payment_intent st2 pd.payment_intent.payment_id
        pd.payment_intent.merchant_id = some pd2.payment_intent
    ∧ find_payment_attempt st2 pd.payment_attempt.payment_id
        pd.payment_attempt.merchant_id pd.payment_attempt.attempt_id
        = some pd2.payment_attempt
    ∧ evs = [{ error_code := pd2.payment_attempt.error_code,
               error_message := pd2.payment_attempt.error_message }] := by
  obtain ⟨st1, ni, na, hu1, hu2, hpd, hevs⟩ :=
    update_trackers_ok st pd scheme pd2 evs st2 h
  obtain ⟨hni, _, _, _, hfind1⟩ := update_payment_intent_ok _ _ _ _ _ hu1
  obtain ⟨hna, hints, _, _, hfind2⟩ := update_payment_attempt_ok _ _ _ _ _ hu2
  subst hpd
  refine ⟨?_, ?_, ?_, ?_, ?_, ?_⟩
  · rw [hni]; rfl
  · rw [hni]; rfl
  · rw [hna]; rfl
  · unfold find_payment_intent at hfind1 ⊢
    rw [hints]
    exact hfind1
  · exact hfind2
  · exact hevs

/-- Witness for C3 at the sample reject of `pay_1`. -/
theorem reject_update_trackers_transitions_witness :
    update_trackers sampleStore samplePaymentData .PostgresOnly
      = (.ok (samplePaymentDataRejected,
          [{ error_code := none, error_message := none }]), sampleStoreRejected)
    ∧ samplePaymentDataRejected.payment_intent.status = .Failed
    ∧ find_payment_intent sampleStoreRejected "pay_1" "m_1"
        = some samplePaymentDataRejected.payment_intent :=
  ⟨rfl,
   (reject_update_trackers_transitions sampleStore samplePaymentData .PostgresOnly
      samplePaymentDataRejected [{ error_code := none, error_message := none }]
      sampleStoreRejected rfl).1,
   (reject_update_trackers_transitions sampleStore samplePaymentData .PostgresOnly
      samplePaymentDataRejected [{ error_code := none, error_message := none }]
      sampleStoreRejected rfl).2.2.2.1⟩

/-- C4: the attempt update statement copies the rendered fraud status
into `error_code` and the rendered (optional) fraud reason into
`error_message` when the Working Set holds a fraud-check result; with no
fraud-check result both fields are left unset in the update, and
applying such an update leaves the stored error fields unchanged. -/
theorem reject_attempt_error_fields (frm : Option FraudCheck)
    (scheme : MerchantStorageScheme) :
    (∀ fc, frm = some fc →
      (reject_attempt_update frm scheme).error_code
          = some (some (frmStatusToString fc.frm_status))
      ∧ (reject_attempt_update frm scheme).error_message = some fc.frm_reason)
    ∧ (frm = none →
      (reject_attempt_update frm scheme).error_code = none
      ∧ (reject_attempt_update frm scheme).error_message = none
      ∧ ∀ a : PaymentAttempt,
          (applyAttemptRejectUpdate a (reject_attempt_update frm scheme)).error_code
            = a.error_code
          ∧ (applyAttemptRejectUpdate a
              (reject_attempt_update frm scheme)).error_message
            = a.error_message) := by
  constructor
  · intro fc hfc
    subst hfc
    exact ⟨rfl, rfl⟩
  · intro hn
    subst hn
    exact ⟨rfl, rfl, fun a => ⟨rfl, rfl⟩⟩

/-- Witness for C4 with and without a fraud-check result. -/
theorem reject_attempt_error_fields_witness :
    ((reject_attempt_update (some sampleFraudCheck) .PostgresOnly).error_code
        = some (some "fraud")
      ∧ (reject_attempt_update (some sampleFraudCheck) .PostgresOnly).error_message
        = some (some "card reported stolen"))
    ∧ ((applyAttemptRejectUpdate sampleAttempt
          (reject_attempt_update none .PostgresOnly)).error_code = none
      ∧ (applyAttemptRejectUpdate sampleAttempt
          (reject_attempt_update none .PostgresOnly)).error_message = none) :=
  ⟨(reject_attempt_error_fields (some sampleFraudCheck) .PostgresOnly).1
      sampleFraudCheck rfl,
   ((reject_attempt_error_fields none .PostgresOnly).2 rfl).2.2 sampleAttempt⟩

/-- C5: a successful reject UpdateTracker invocation emits exactly one
audit event, in the returned event output before the function returns,
and that event's error code and message equal the error code and
message of the attempt row persisted by the same invocation. -/
theorem reject_audit_event_once (st : Store) (pd : PaymentData)
    (scheme : MerchantStorageScheme) (pd2 : PaymentData)
    (evs : List AuditEventPaymentReject) (st2 : Store)
    (h : update_trackers st pd scheme = (.ok (pd2, evs), st2)) :
    evs.length = 1
    ∧ evs = [{ error_code := pd2.payment_attempt.error_code,
               error_message := pd2.payment_attempt.error_message }]
    ∧ find_payment_attempt st2 pd.payment_attempt.payment_id
        pd.payment_attempt.merchant_id pd.payment_attempt.attempt_id
        = some pd2.payment_attempt := by
  obtain ⟨st1, ni, na, hu1, hu2, hpd, hevs⟩ :=
    update_trackers_ok st pd scheme pd2 evs st2 h
  obtain ⟨hna, _, _, _, hfind2⟩ := update_payment_attempt_ok _ _ _ _ _ hu2
  subst hpd
  exact ⟨by rw [hevs]; rfl, hevs, hfind2⟩

/-- Witness for C5 at the sample reject of `pay_1`. -/
theorem reject_audit_event_once_witness :
    update_trackers sampleStore samplePaymentData .PostgresOnly
      = (.ok (samplePaymentDataRejected,
          [{ error_code := none, error_message := none }]), sampleStoreRejected)
    ∧ [({ error_code := none, error_message := none } : AuditEventPaymentReject)].length
        = 1 :=
  ⟨rfl,
   (reject_audit_event_once sampleStore samplePaymentData .PostgresOnly
      samplePaymentDataRejected [{ error_code := none, error_message := none }]
      sampleStoreRejected rfl).1⟩

/-- C6: in every successful reject UpdateTracker invocation the intent
update is issued first, producing an intermediate store in which the
intent row is already Failed while the attempt rows are exactly those of
the input store (stale), and the attempt update is then issued against
that intermediate store to produce the final store — so an interruption
between the two leaves the intent updated and the attempt stale, never
the reverse. -/
theorem reject_intent_before_attempt (st : Store) (pd : PaymentData)
    (scheme : MerchantStorageScheme) (pd2 : PaymentData)
    (evs : List AuditEventPaymentReject) (st2 : Store)
    (h : update_trackers st pd scheme = (.ok (pd2, evs), st2)) :
    ∃ st1,
      update_payment_intent st pd.payment_intent (reject_intent_update scheme)
        = (some pd2.payment_intent, st1)
      ∧ st1.attempts = st.attempts
      ∧ find_payment_intent st1 pd.payment_intent.payment_id
          pd.payment_intent.merchant_id = some pd2.payment_intent
      ∧ pd2.payment_intent.status = .Failed
      ∧ update_payment_attempt_with_attempt_id st1 pd.payment_attempt
          (reject_attempt_update pd.frm_message scheme)
        = (some pd2.payment_attempt, st2) := by
  obtain ⟨st1, ni, na, hu1, hu2, hpd, hevs⟩ :=
    update_trackers_ok st pd scheme pd2 evs st2 h
  obtain ⟨hni, hatts, _, _, hfind1⟩ := update_payment_intent_ok _ _ _ _ _ hu1
  subst hpd
  exact ⟨st1, hu1, hatts, hfind1, by rw [hni]; rfl, hu2⟩

/-- Witness for C6 at the sample reject of `pay_1`. -/
theorem reject_intent_before_attempt_witness :
    update_trackers sampleStore samplePaymentData .PostgresOnly
      = (.ok (samplePaymentDataRejected,
          [{ error_code := none, error_message := none }]), sampleStoreRejected)
    ∧ samplePaymentDataRejected.payment_intent.status = .Failed := by
  refine ⟨rfl, ?_⟩
  obtain ⟨st1, h1, h2, h3, h4, h5⟩ :=
    reject_intent_before_attempt sampleStore samplePaymentData .PostgresOnly
      samplePaymentDataRejected [{ error_code := none, error_message := none }]
      sampleStoreRejected rfl
  exact h4

/-- C8 counterexample: for the accepted Working Set of `pay_1`, running
UpdateTracker and then re-loading the same payment via the reject
GetTracker does not yield a Working Set at all — the guard now rejects
the persisted Failed status with `InvalidStatusTransition`. -/
theorem reject_roundtrip_counterexample :
    (get_trackers sampleStore (.PaymentIntentId "pay_1") sampleMC).1
      = .ok { payment_data := samplePaymentData, business_profile := sampleProfile }
    ∧ update_trackers sampleStore samplePaymentData .PostgresOnly
      = (.ok (samplePaymentDataRejected,
          [{ error_code := none, error_message := none }]), sampleStoreRejected)
    ∧ (get_trackers sampleStoreRejected (.PaymentIntentId "pay_1") sampleMC).1
      = .error (.InvalidStatusTransition "reject" "failed") :=
  ⟨rfl, rfl, rfl⟩

/-- C8 as amended: after a successful UpdateTracker run, re-loading the
same payment's rows by the storage reads GetTracker uses (before its
status guard) yields exactly the persisted rows — intent Failed, attempt
Failure with the error fields the update statement produced — while the
reject GetTracker itself then fails its guard with
`InvalidStatusTransition`, because the persisted intent status Failed is
in the forbidden set. -/
theorem reject_roundtrip_amended (st : Store) (pd : PaymentData)
    (mc : MerchantContext) (pd2 : PaymentData)
    (evs : List AuditEventPaymentReject) (st2 : Store)
    (hmid : pd.payment_intent.merchant_id = mc.merchant_id)
    (h : update_trackers st pd mc.storage_scheme = (.ok (pd2, evs), st2)) :
    find_payment_intent st2 pd.payment_intent.payment_id mc.merchant_id
      = some pd2.payment_intent
    ∧ pd2.payment_intent.status = .Failed
    ∧ find_payment_attempt st2 pd.payment_attempt.payment_id
        pd.payment_attempt.merchant_id pd.payment_attempt.attempt_id
        = some pd2.payment_attempt
    ∧ pd2.payment_attempt.status = .Failure
    ∧ pd2.payment_attempt.error_code
        = (applyAttemptRejectUpdate pd.payment_attempt
            (reject_attempt_update pd.frm_message mc.storage_scheme)).error_code
    ∧ pd2.payment_attempt.error_message
        = (applyAttemptRejectUpdate pd.payment_attempt
            (reject_attempt_update pd.frm_message mc.storage_scheme)).error_message
    ∧ (get_trackers st2 (.PaymentIntentId pd.payment_intent.payment_id) mc).1
        = .error (.InvalidStatusTransition "reject"
            (intentStatusToString .Failed)) := by
  obtain ⟨st1, ni, na, hu1, hu2, hpd, hevs⟩ :=
    update_trackers_ok st pd mc.storage_scheme pd2 evs st2 h
  obtain ⟨hni, _, _, _, hfind1⟩ := update_payment_intent_ok _ _ _ _ _ hu1
  obtain ⟨hna, hints, _, _, hfind2⟩ := update_payment_attempt_ok _ _ _ _ _ hu2
  subst hpd
  rw [hmid] at hfind1
  have hfound2 : find_payment_intent st2 pd.payment_intent.payment_id
      mc.merchant_id = some ni := by
    unfold find_payment_intent at hfind1 ⊢
    rw [hints]
    exact hfind1
  have hstatus : ni.status = .Failed := by rw [hni]; rfl
  refine ⟨hfound2, hstatus, hfind2, by rw [hna]; rfl, by rw [hna],
    by rw [hna], ?_⟩
  simp only [get_trackers, PaymentIdType.get_payment_intent_id]
  rw [hfound2]
  simp [validate_payment_status_against_not_allowed_statuses, hstatus]

/-- Witness for the amended C8 at the sample reject of `pay_1`. -/
theorem reject_roundtrip_amended_witness :
    update_trackers sampleStore samplePaymentData sampleMC.storage_scheme
      = (.ok (samplePaymentDataRejected,
          [{ error_code := none, error_message := none }]), sampleStoreRejected)
    ∧ (get_trackers sampleStoreRejected (.PaymentIntentId "pay_1") sampleMC).1
        = .error (.InvalidStatusTransition "reject" "failed") :=
  ⟨rfl,
   (reject_roundtrip_amended sampleStore samplePaymentData sampleMC
      samplePaymentDataRejected [{ error_code := none, error_message := none }]
      sampleStoreRejected rfl rfl).2.2.2.2.2.2⟩

/-- C2: inserting a new customer whose natural key already exists in the
store recovers by fetching and returning the pre-existing record with
the store unchanged; a fresh insert appends the record, and repeating
the creation with the same natural key then returns that original record
with the store again unchanged (idempotence); any insertion error other
than a unique violation surfaces as `InternalServerError`. -/
theorem create_customer_idempotent (st : Store) (n : CustomerNew) :
    (∀ c, find_customer st n.customer_id n.merchant_id = some c →
      create_customer st n = (.ok c, st))
    ∧ (find_customer st n.customer_id n.merchant_id = none →
        create_customer st n
          = (.ok n.toCustomer,
             { st with customers := st.customers ++ [n.toCustomer] })
        ∧ create_customer (create_customer st n).2 n
          = (.ok n.toCustomer, (create_customer st n).2))
    ∧ (∀ f, create_customer_match (.error .Other) f = .error .InternalServerError) := by
  refine ⟨?_, ?_, fun f => rfl⟩
  · intro c hc
    simp [create_customer, insert_customer, create_customer_match, hc,
      StorageError.is_db_unique_violation]
  · intro hn
    have h1 : create_customer st n
        = (.ok n.toCustomer,
           { st with customers := st.customers ++ [n.toCustomer] }) := by
      simp [create_customer, insert_customer, create_customer_match, hn]
    have hfind1 : find_customer
        { st with customers := st.customers ++ [n.toCustomer] }
        n.customer_id n.merchant_id = some n.toCustomer := by
      unfold find_customer at hn ⊢
      simp only [List.find?_append, hn, Option.none_or]
      simp [CustomerNew.toCustomer, List.find?]
    refine ⟨h1, ?_⟩
    rw [h1]
    simp [create_customer, insert_customer, create_customer_match, hfind1,
      StorageError.is_db_unique_violation]

/-- Witness for C2: creating `(cust_1, m_1)` in an empty-customer store
appends it, and creating it again in a store already holding it returns
the stored record with the store unchanged. -/
theorem create_customer_idempotent_witness :
    find_customer sampleCustomerStore "cust_1" "m_1"
      = some sampleCustomerNew.toCustomer
    ∧ create_customer sampleCustomerStore sampleCustomerNew
        = (.ok sampleCustomerNew.toCustomer, sampleCustomerStore)
    ∧ find_customer sampleStore "cust_1" "m_1" = none
    ∧ create_customer sampleStore sampleCustomerNew
        = (.ok sampleCustomerNew.toCustomer,
           { sampleStore with customers := [sampleCustomerNew.toCustomer] }) :=
  ⟨by decide,
   (create_customer_idempotent sampleCustomerStore sampleCustomerNew).1
      sampleCustomerNew.toCustomer (by decide),
   by decide,
   ((create_customer_idempotent sampleStore sampleCustomerNew).2.1 (by decide)).1⟩

/-- Characterization of a successful customer-redaction update: the
customer row is still found under its natural key afterwards, with every
personal field overwritten by the literal "Redacted". -/
theorem update_customer_redacted_ok (st : Store) (cid mid : String)
    (c2 : Customer) (st3 : Store)
    (h : update_customer_redacted st cid mid = (some c2, st3)) :
    find_customer st3 cid mid = some c2
    ∧ c2.name = some "Redacted"
    ∧ c2.email = some "Redacted"
    ∧ c2.phone = some "Redacted"
    ∧ c2.description = some "Redacted"
    ∧ c2.phone_country_code = some "Redacted" := by
  unfold update_customer_redacted at h
  cases hf : find_customer st cid mid with
  | none => rw [hf] at h; simp at h
  | some c0 =>
    rw [hf] at h
    simp only [Prod.mk.injEq, Option.some.injEq] at h
    obtain ⟨hc2, hst⟩ := h
    subst hc2
    subst hst
    refine ⟨?_, rfl, rfl, rfl, rfl, rfl⟩
    unfold find_customer at hf ⊢
    apply find_replace
    · rw [hf]; rfl
    · simpa [redactCustomer] using List.find?_some hf

/-- C9: a successful `delete_customer` reports all three deletion flags
as true while the customer row is still stored (only redacted: every
personal field reads "Redacted"); a customer already named "Redacted"
fails with `CustomerRedacted` and a customer with an active mandate
fails with `MandateActive`, both with the store completely unmodified. -/
theorem delete_customer_redacts (st : Store) (mid cid : String) :
    (∀ resp st2, delete_customer st mid cid = (.ok resp, st2) →
      resp = { customer_id := cid, customer_deleted := true,
               address_deleted := true, payment_methods_deleted := true }
      ∧ (find_customer st2 cid mid).isSome = true
      ∧ (find_customer st2 cid mid).map (fun c =>
          (c.name, c.email, c.phone, c.description, c.phone_country_code))
        = some (some "Redacted", some "Redacted", some "Redacted",
            some "Redacted", some "Redacted"))
    ∧ (∀ c, find_customer st cid mid = some c → c.name = some "Redacted" →
        delete_customer st mid cid = (.error .CustomerRedacted, st))
    ∧ (∀ c, find_customer st cid mid = some c → c.name ≠ some "Redacted" →
        (find_mandates st mid cid).any (fun m => m.mandate_status == .Active) = true →
        delete_customer st mid cid = (.error .MandateActive, st)) := by
  refine ⟨?_, ?_, ?_⟩
  · intro resp st2 h
    simp only [delete_customer] at h
    split at h
    · simp at h
    · split at h
      · simp at h
      · split at h
        · simp at h
        · split at h
          · simp at h
          · rename_i c2 st3 hupd
            simp only [Prod.mk.injEq, Except.ok.injEq] at h
            obtain ⟨hresp, hst⟩ := h
            subst hst
            obtain ⟨hfind, hname, hemail, hphone, hdesc, hpcc⟩ :=
              update_customer_redacted_ok _ _ _ _ _ hupd
            refine ⟨hresp.symm, ?_, ?_⟩
            · rw [hfind]; rfl
            · simp [hfind, hname, hemail, hphone, hdesc, hpcc]
  · intro c hc hname
    simp only [delete_customer]
    rw [hc]
    simp [hname]
  · intro c hc hname hact
    simp only [delete_customer]
    rw [hc]
    simp [hname, hact]

/-- Witness for C9: deleting `(cust_1, m_1)` redacts it in place, and
the two guard failures fire on the prepared stores. -/
theorem delete_customer_redacts_witness :
    delete_customer sampleCustomerStore "m_1" "cust_1"
      = (.ok { customer_id := "cust_1", customer_deleted := true,
               address_deleted := true, payment_methods_deleted := true },
         sampleCustomerStoreDeleted)
    ∧ (find_customer sampleCustomerStoreDeleted "cust_1" "m_1").map (fun c =>
        (c.name, c.email, c.phone, c.description, c.phone_country_code))
      = some (some "Redacted", some "Redacted", some "Redacted",
          some "Redacted", some "Redacted")
    ∧ delete_customer sampleCustomerStoreRedacted "m_1" "cust_1"
        = (.error .CustomerRedacted, sampleCustomerStoreRedacted)
    ∧ delete_customer sampleCustomerStoreActiveMandate "m_1" "cust_1"
        = (.error .MandateActive, sampleCustomerStoreActiveMandate) :=
  ⟨rfl,
   ((delete_customer_redacts sampleCustomerStore "m_1" "cust_1").1
      { customer_id := "cust_1", customer_deleted := true,
        address_deleted := true, payment_methods_deleted := true }
      sampleCustomerStoreDeleted rfl).2.2,
   (delete_customer_redacts sampleCustomerStoreRedacted "m_1" "cust_1").2.1
      { sampleCustomerNew.toCustomer with name := some "Redacted" }
      (by decide) rfl,
   (delete_customer_redacts sampleCustomerStoreActiveMandate "m_1" "cust_1").2.2
      sampleCustomerNew.toCustomer (by decide) (by decide) (by decide)⟩

end Hyperswitch
